import Mathlib

/-!
Shallow embedding of the connection tracking core in `network/connection.go`
(package `network`) of the portmaster repository, together with proofs about
the properties claimed for it.

Modelling conventions:
* Go machine integers holding epoch seconds or PIDs become `Int`;
  ports, counters and enum-backing values become `Nat`.
* Nil-able Go pointers become `Option`.
* The per-connection mutex, `sync.Mutex`, and the atomic `abool.AtomicBool`
  are not modelled: the embedding is sequential, so `dataComplete` and
  `pktQueueActive` are plain `Bool` fields.
* The buffered Go channel `pktQueue` (capacity 100) is modelled as a FIFO
  `List Packet` whose length is bounded by the capacity; a non-blocking send
  appends when the length is below capacity and fails otherwise.
* External collaborators (process resolver, reverse-DNS cache, captive
  portal, feature gate, DNS-request table) live in other packages and are
  modelled as an oracle record `Env` of pure functions, passed explicitly
  where the Go code calls them.
* Side effects on collaborators (database push, metrics, worker start,
  packet drop) are returned as explicit effect values next to the new state.
-/

namespace Network

/-- Modelled from the spec: the `Verdict` enumeration is declared in
`network/verdict.go`, which is not part of the sources; the spec fixes the
severity order Undecided < Accept < Trust < RerouteToNS < RerouteToTunnel <
Block < Drop < Failed. -/
inductive Verdict where
  | Undecided
  | Accept
  | Trust
  | RerouteToNS
  | RerouteToTunnel
  | Block
  | Drop
  | Failed
deriving DecidableEq, Repr

/-- Modelled from the spec: numeric severity realising the total order on
verdicts used for worst-case reasoning. -/
def Verdict.severity : Verdict → Nat
  | .Undecided => 0
  | .Accept => 1
  | .Trust => 2
  | .RerouteToNS => 3
  | .RerouteToTunnel => 4
  | .Block => 5
  | .Drop => 6
  | .Failed => 7

/-- Connection types, from the `ConnectionType` constants in
`network/connection.go`. -/
inductive ConnectionType where
  | Undefined
  | IPConnection
  | DNSRequest
deriving DecidableEq, Repr

/-- Modelled from the spec: the IP scope classification of
`network/netutils`, which is not part of the sources; the spec's scope table
lists these classes. -/
inductive IPScope where
  | Undefined
  | HostLocal
  | LinkLocal
  | SiteLocal
  | LocalMulticast
  | Global
  | GlobalMulticast
  | Invalid
deriving DecidableEq, Repr

/-- Modelled from the spec: `netutils.IPScope.IsLocalhost`, not part of the
sources; localhost means the host-local scope. -/
def IPScope.isLocalhost : IPScope → Bool
  | .HostLocal => true
  | _ => false

/-- Modelled from the spec: the scope tag constants (IncomingHost etc.) are
declared elsewhere in the `network` package; only their distinctness
matters here. -/
def IncomingHost : String := "IncomingHost"

/-- Modelled from the spec: scope tag constant, declared outside the
sources. -/
def IncomingLAN : String := "IncomingLAN"

/-- Modelled from the spec: scope tag constant, declared outside the
sources. -/
def IncomingInternet : String := "IncomingInternet"

/-- Modelled from the spec: scope tag constant, declared outside the
sources. -/
def IncomingInvalid : String := "IncomingInvalid"

/-- Modelled from the spec: scope tag constant, declared outside the
sources. -/
def PeerHost : String := "PeerHost"

/-- Modelled from the spec: scope tag constant, declared outside the
sources. -/
def PeerLAN : String := "PeerLAN"

/-- Modelled from the spec: scope tag constant, declared outside the
sources. -/
def PeerInternet : String := "PeerInternet"

/-- Modelled from the spec: scope tag constant, declared outside the
sources. -/
def PeerInvalid : String := "PeerInvalid"

/-- Modelled from the spec: `process.UndefinedProcessID`, declared in the
`process` package outside the sources; a negative sentinel PID meaning the
process is not identified. -/
def UndefinedProcessID : Int := -1

/-- Modelled from the spec: the UDP transport protocol number from the
`packet` package, outside the sources. -/
def UDP : Nat := 17

/-- Modelled from the spec: the IPv4 version tag from the `packet` package,
outside the sources. -/
def IPv4 : Nat := 4

/-- Modelled from the spec: the IPv6 version tag from the `packet` package,
outside the sources. -/
def IPv6 : Nat := 6

/-- Modelled from the spec: `resolver.IPInfoProfileScopeGlobal`, the global
profile scope of the reverse-IP cache, declared outside the sources. -/
def IPInfoProfileScopeGlobal : String := "global"

/-- Modelled from the spec: the packet metadata record returned by
`pkt.Info()` (package `packet`, outside the sources), with the fields the
core reads. `SeenAt` is already in epoch seconds (the Go code calls
`.Unix()` on it). IP addresses are opaque strings. -/
structure PacketInfo where
  Inbound : Bool
  Version : Nat
  Protocol : Nat
  Src : String
  SrcPort : Nat
  Dst : String
  DstPort : Nat
  PID : Int
  SeenAt : Int
deriving DecidableEq, Repr

/-- Modelled from the spec: `packet.Info.RemoteIP`, outside the sources;
the remote end is the source for inbound and the destination for outbound
packets. -/
def PacketInfo.RemoteIP (i : PacketInfo) : String :=
  if i.Inbound then i.Src else i.Dst

/-- Modelled from the spec: `packet.Info.LocalIP`, outside the sources. -/
def PacketInfo.LocalIP (i : PacketInfo) : String :=
  if i.Inbound then i.Dst else i.Src

/-- Modelled from the spec: `packet.Info.RemotePort`, outside the
sources. -/
def PacketInfo.RemotePort (i : PacketInfo) : Nat :=
  if i.Inbound then i.SrcPort else i.DstPort

/-- Modelled from the spec: `packet.Info.LocalPort`, outside the
sources. -/
def PacketInfo.LocalPort (i : PacketInfo) : Nat :=
  if i.Inbound then i.DstPort else i.SrcPort

/-- Modelled from the spec: the `packet.Packet` interface, outside the
sources, restricted to the observers the core uses (`Info`, `InfoOnly`,
`ExpectInfo`, `GetConnectionID`). The `Drop()` side effect is reported as
an explicit effect value by the operations that invoke it. -/
structure Packet where
  info : PacketInfo
  infoOnly : Bool
  expectInfo : Bool
  connectionID : String
deriving DecidableEq, Repr

/-- Modelled from the spec: the local profile reachable through
`LayeredProfile.LocalProfile()` (`profile` package, outside the sources),
with the fields the core reads. -/
structure LocalProfile where
  id : String
  name : String
  source : String
  internal : Bool

/-- Modelled from the spec: the layered profile returned by
`process.Profile()` (`profile` package, outside the sources), with the
members the core uses. -/
structure LayeredProfile where
  localProfile : Option LocalProfile
  revisionCnt : Nat
  enableHistory : Bool
  getProfileSource : String → String

/-- Modelled from the spec: the `process.Process` record (`process`
package, outside the sources), with the fields the core reads.
`profile` is the layered profile attached to the process; `none` models a
nil profile pointer. -/
structure Process where
  name : String
  path : String
  cmdLine : String
  pid : Int
  createdAt : Int
  profile : Option LayeredProfile

/-- The `intel.Entity` describing the remote peer, restricted to the fields
the core reads and writes (`intel` package, outside the sources; field set
follows the spec's data model). -/
structure Entity where
  ip : String
  protocol : Nat
  port : Nat
  domain : String
  cname : List String
  ipScope : IPScope

/-- `ProcessContext` from `network/connection.go`: a snapshot of process
and profile identification data. -/
structure ProcessContext where
  ProcessName : String
  ProfileName : String
  BinaryPath : String
  CmdLine : String
  PID : Int
  CreatedAt : Int
  Profile : String
  Source : String

/-- The zero value of `ProcessContext`. -/
def emptyProcessContext : ProcessContext :=
  { ProcessName := "", ProfileName := "", BinaryPath := "", CmdLine := ""
    PID := 0, CreatedAt := 0, Profile := "", Source := "" }

/-- `Reason` from `network/connection.go`. The `Context interface{}` payload
is modelled as an optional opaque string. -/
structure Reason where
  Msg : String
  OptionKey : String
  Profile : String
  Context : Option String

/-- The verdict triple stored in `Connection.Verdict`. -/
structure VerdictTriple where
  Worst : Verdict
  Active : Verdict
  Firewall : Verdict
deriving DecidableEq, Repr

/-- A firewall handler. The Go type is a function pointer; only its
presence or absence and its identity are observable to the operations
embedded here (the worker that invokes it is not modelled), so it is an
opaque token. -/
structure FirewallHandler where
  id : Nat
deriving DecidableEq, Repr

/-- The `Connection` record from `network/connection.go`, restricted to the
fields that the embedded operations read or write. `connType` embeds the Go
field `Type` (a Lean keyword). `keyIsSet` models the `record.Base` database
key state observed through `KeyIsSet`/`SetKey`. -/
structure Connection where
  ID : String
  connType : ConnectionType
  External : Bool
  Scope : String
  IPVersion : Nat
  Inbound : Bool
  IPProtocol : Nat
  LocalIP : String
  LocalIPScope : IPScope
  LocalPort : Nat
  PID : Int
  Entity : Option Entity
  Resolver : Option String
  Verdict : VerdictTriple
  Reason : Reason
  Started : Int
  Ended : Int
  Internal : Bool
  Tunneled : Bool
  ProcessContext : ProcessContext
  DNSContext : Option String
  HistoryEnabled : Bool
  BandwidthEnabled : Bool
  pktQueue : List Packet
  pktQueueActive : Bool
  dataComplete : Bool
  process : Option Process
  firewallHandler : Option FirewallHandler
  saveWhenFinished : Bool
  ProfileRevisionCounter : Nat
  addedToMetrics : Bool
  keyIsSet : Bool

/-- The zero value of `Connection`, as produced by a Go struct literal that
leaves fields unset. -/
def emptyConnection : Connection :=
  { ID := "", connType := ConnectionType.Undefined, External := false
    Scope := "", IPVersion := 0, Inbound := false, IPProtocol := 0
    LocalIP := "", LocalIPScope := IPScope.Undefined, LocalPort := 0
    PID := 0, Entity := none, Resolver := none
    Verdict := { Worst := Verdict.Undecided, Active := Verdict.Undecided
                 Firewall := Verdict.Undecided }
    Reason := { Msg := "", OptionKey := "", Profile := "", Context := none }
    Started := 0, Ended := 0, Internal := false, Tunneled := false
    ProcessContext := emptyProcessContext, DNSContext := none
    HistoryEnabled := false, BandwidthEnabled := false
    pktQueue := [], pktQueueActive := false, dataComplete := false
    process := none, firewallHandler := none, saveWhenFinished := false
    ProfileRevisionCounter := 0, addedToMetrics := false, keyIsSet := false }

/-- `conn.Process()` from `network/connection.go`. -/
def Connection.Process (conn : Connection) : Option Process :=
  conn.process

/-- `conn.DataIsComplete()` from `network/connection.go`. -/
def Connection.DataIsComplete (conn : Connection) : Bool :=
  conn.dataComplete

/-- The layered profile of the connection's process, i.e. the Go chain
`conn.Process().Profile()`; a nil process yields a nil profile. -/
def Connection.processProfile (conn : Connection) : Option LayeredProfile :=
  conn.process >>= Process.profile

/-- Modelled from the spec: the feature identifiers of the access/account
gate (`account.FeatureHistory`, `account.FeatureBWVis`), outside the
sources. -/
inductive Feature where
  | history
  | bwVis
deriving DecidableEq, Repr

/-- Modelled from the spec: the user record of the access gate, outside the
sources, restricted to the feature checks the core performs. -/
structure User where
  mayUseHistory : Bool
  mayUseBWVis : Bool

/-- Modelled from the spec: `user.MayUse(feature)` where the user pointer
may be nil; a nil user may use nothing. -/
def userMayUse (user : Option User) : Feature → Bool
  | f =>
    match user with
    | none => false
    | some u =>
      match f with
      | .history => u.mayUseHistory
      | .bwVis => u.mayUseBWVis

/-- The oracle record bundling every external collaborator the embedded
operations consult. Each field models one call into a package outside the
sources; the functions are pure, reflecting that the embedding looks at a
single instant of the collaborators' state. -/
structure IPInfoDomain where
  domain : String
  cnames : List String
  dnsRequestContext : Option String
  resolverInfo : Option String

/-- The reverse-IP cache record (`resolver.IPInfo`), outside the sources:
it exposes the most recently resolved domain, if any. -/
structure IPInfo where
  mostRecentDomain : Option IPInfoDomain

/-- The external-collaborator oracle. -/
structure Env where
  getIPScope : String → IPScope
  isIPv4 : String → Bool
  getPidOfConnection : PacketInfo → Int × Bool
  getProcessWithProfile : Int → Option Process
  getIPInfo : String → String → Option IPInfo
  captivePortal : Option (String × String)
  getUser : Option User
  getUserHardError : Bool
  getDNSRequestConnection : PacketInfo → Option Connection
  defaultFirewallHandler : Connection → Packet → Connection

/-! ## Operations from `network/connection.go` -/

/-- `getProcessContext` (connection.go, lines 250-272): snapshot the process
fields, then add profile identification when the local profile exists. -/
def getProcessContext (proc : Process) : ProcessContext :=
  let pCtx : ProcessContext :=
    { ProcessName := proc.name, BinaryPath := proc.path
      CmdLine := proc.cmdLine, PID := proc.pid, CreatedAt := proc.createdAt
      ProfileName := "", Profile := "", Source := "" }
  match proc.profile >>= LayeredProfile.localProfile with
  | none => pCtx
  | some lp =>
    { pCtx with ProfileName := lp.name, Profile := lp.id, Source := lp.source }

/-- `conn.SetLocalIP` (connection.go, lines 592-595). The scope lookup
`netutils.GetIPScope` is outside the sources and comes from the oracle. -/
def Connection.SetLocalIP (env : Env) (conn : Connection) (ip : String) : Connection :=
  { conn with LocalIP := ip, LocalIPScope := env.getIPScope ip }

/-- `conn.UpdateFeatures` (connection.go, lines 600-629): recompute
`HistoryEnabled` and `BandwidthEnabled` from the feature gate. A hard error
from `access.GetUser` aborts before any field is written. Reading
`conn.Entity.IPScope` assumes the entity exists, as at every call site;
a missing entity is read as not-localhost. -/
def Connection.UpdateFeatures (env : Env) (conn : Connection) : Connection :=
  if env.getUserHardError then conn
  else
    let user := env.getUser
    let conn := { conn with HistoryEnabled := false }
    let conn :=
      if conn.Internal then conn
      else if (conn.Entity.map fun e => e.ipScope.isLocalhost).getD false then conn
      else if userMayUse user Feature.history then
        match conn.processProfile with
        | some lProfile => { conn with HistoryEnabled := lProfile.enableHistory }
        | none => conn
      else conn
    { conn with BandwidthEnabled := userMayUse user Feature.bwVis }

/-- `conn.SetVerdictDirectly` (connection.go, lines 717-720). -/
def Connection.SetVerdictDirectly (conn : Connection) (newVerdict : Network.Verdict) : Connection :=
  { conn with Verdict := { conn.Verdict with Firewall := newVerdict } }

/-- `conn.SetVerdict` (connection.go, lines 693-715): set the firewall
verdict, replace the reason message and context, reset the option key and
profile, and reassign them from the process profile when a non-empty option
key is given and the profile exists. Always returns `true`. -/
def Connection.SetVerdict (conn : Connection) (newVerdict : Network.Verdict)
    (reason reasonOptionKey : String) (reasonCtx : Option String) :
    Connection × Bool :=
  let conn := conn.SetVerdictDirectly newVerdict
  let conn := { conn with
    Reason := { Msg := reason, Context := reasonCtx, OptionKey := "", Profile := "" } }
  let conn :=
    if reasonOptionKey ≠ "" then
      match conn.processProfile with
      | some lp =>
        { conn with Reason := { conn.Reason with
            OptionKey := reasonOptionKey
            Profile := lp.getProfileSource reasonOptionKey } }
      | none => conn
    else conn
  (conn, true)

/-- `conn.AcceptWithContext` (connection.go, lines 631-636); the warning
log on a rejected transition is not modelled (`SetVerdict` always
accepts). -/
def Connection.AcceptWithContext (conn : Connection)
    (reason reasonOptionKey : String) (ctx : Option String) : Connection :=
  (conn.SetVerdict Verdict.Accept reason reasonOptionKey ctx).1

/-- `conn.Accept` (connection.go, lines 638-641). -/
def Connection.Accept (conn : Connection) (reason reasonOptionKey : String) : Connection :=
  conn.AcceptWithContext reason reasonOptionKey none

/-- `conn.BlockWithContext` (connection.go, lines 643-648). -/
def Connection.BlockWithContext (conn : Connection)
    (reason reasonOptionKey : String) (ctx : Option String) : Connection :=
  (conn.SetVerdict Verdict.Block reason reasonOptionKey ctx).1

/-- `conn.Block` (connection.go, lines 650-653). -/
def Connection.Block (conn : Connection) (reason reasonOptionKey : String) : Connection :=
  conn.BlockWithContext reason reasonOptionKey none

/-- `conn.DropWithContext` (connection.go, lines 655-660). -/
def Connection.DropWithContext (conn : Connection)
    (reason reasonOptionKey : String) (ctx : Option String) : Connection :=
  (conn.SetVerdict Verdict.Drop reason reasonOptionKey ctx).1

/-- `conn.Drop` (connection.go, lines 662-665). -/
def Connection.Drop (conn : Connection) (reason reasonOptionKey : String) : Connection :=
  conn.DropWithContext reason reasonOptionKey none

/-- `conn.DenyWithContext` (connection.go, lines 667-674): drop inbound,
block outbound. -/
def Connection.DenyWithContext (conn : Connection)
    (reason reasonOptionKey : String) (ctx : Option String) : Connection :=
  if conn.Inbound then conn.DropWithContext reason reasonOptionKey ctx
  else conn.BlockWithContext reason reasonOptionKey ctx

/-- `conn.Deny` (connection.go, lines 676-679). -/
def Connection.Deny (conn : Connection) (reason reasonOptionKey : String) : Connection :=
  conn.DenyWithContext reason reasonOptionKey none

/-- `conn.FailedWithContext` (connection.go, lines 681-686). -/
def Connection.FailedWithContext (conn : Connection)
    (reason reasonOptionKey : String) (ctx : Option String) : Connection :=
  (conn.SetVerdict Verdict.Failed reason reasonOptionKey ctx).1

/-- `conn.Failed` (connection.go, lines 688-691). -/
def Connection.Failed (conn : Connection) (reason reasonOptionKey : String) : Connection :=
  conn.FailedWithContext reason reasonOptionKey none

/-! ## Flow correlator -/

/-- The decision of the `switch` in `NewConnectionFromDNSRequest`
(connection.go, lines 294-311): the pre-registered DNS-request connection
donates its PID and process reference unless the lookup failed, its PID is
negative, or it ended more than 3 seconds before `now`. -/
def dnsRequestInheritance (found : Option Connection) (now : Int) :
    Option (Int × Option Process) :=
  match found with
  | none => none
  | some dnsRequestConn =>
    if dnsRequestConn.PID < 0 then none
    else if dnsRequestConn.Ended > 0 ∧ dnsRequestConn.Ended < now - 3 then none
    else some (dnsRequestConn.PID, dnsRequestConn.process)

/-- `NewConnectionFromDNSRequest` (connection.go, lines 274-359): build a
synthetic outbound UDP packet-info with the local address as source, try to
inherit PID and process from a pre-registered DNS-request connection, fall
back to the OS state tables and the process resolver, and construct a
completed DNS-request connection. `now` stands for `time.Now().Unix()`.
The Go code reads `proc.Pid` from a process pointer the resolver guarantees
non-nil; a nil process degrades to the undefined PID here. Registry
registration (`UpdateMeta`) has no observable effect on the record. -/
def NewConnectionFromDNSRequest (env : Env) (fqdn : String) (cnames : List String)
    (connID : String) (localIP : String) (localPort : Nat) (now : Int) : Connection :=
  let ipVersion := if env.isIPv4 localIP then IPv4 else IPv6
  let pi : PacketInfo :=
    { Inbound := false, Version := ipVersion, Protocol := UDP
      Src := localIP, SrcPort := localPort, Dst := "", DstPort := 0
      PID := UndefinedProcessID, SeenAt := now }
  let inh := dnsRequestInheritance (env.getDNSRequestConnection pi) now
  let piPID := match inh with | some pr => pr.1 | none => UndefinedProcessID
  let proc0 : Option Process := match inh with | some pr => pr.2 | none => none
  let piPID := if piPID = UndefinedProcessID then
      (env.getPidOfConnection { pi with PID := piPID }).1
    else piPID
  let proc := match proc0 with
    | some p => some p
    | none => env.getProcessWithProfile piPID
  let conn : Connection := { emptyConnection with
    ID := connID
    connType := ConnectionType.DNSRequest
    Scope := fqdn
    PID := (proc.map Process.pid).getD UndefinedProcessID
    Entity := some { ip := "", protocol := 0, port := 0, domain := fqdn
                     cname := cnames, ipScope := IPScope.Global }
    process := proc
    ProcessContext := (proc.map getProcessContext).getD emptyProcessContext
    Started := now
    Ended := now
    dataComplete := true }
  match proc >>= Process.profile >>= LayeredProfile.localProfile with
  | some localProfile =>
    Connection.UpdateFeatures env { conn with Internal := localProfile.internal }
  | none => conn

/-- `tooOldTimestamp` (connection.go, line 404):
`time.Date(2020, 1, 1, 0, 0, 0, 0, time.UTC).Unix()` = 1577836800. -/
def tooOldTimestamp : Int := 1577836800

/-- `NewIncompleteConnection` (connection.go, lines 406-434): a minimal IP
connection from a packet; a `Started` stamp predating 2020-01-01 UTC is
replaced by the current time `now`. Registry registration and `UpdateMeta`
have no observable effect on the record. -/
def NewIncompleteConnection (pkt : Packet) (now : Int) : Connection :=
  let conn := { emptyConnection with
    ID := pkt.connectionID
    connType := ConnectionType.IPConnection
    IPVersion := pkt.info.Version
    IPProtocol := pkt.info.Protocol
    Started := pkt.info.SeenAt
    PID := pkt.info.PID
    dataComplete := false }
  if conn.Started < tooOldTimestamp then { conn with Started := now } else conn

/-! ### `GatherConnectionInfo` (connection.go, lines 436-573), split into
its successive stages. -/

/-- The scope tag derived from direction and entity IP scope
(connection.go, lines 451-480). -/
def scopeFor (inbound : Bool) : IPScope → String
  | .HostLocal => if inbound then IncomingHost else PeerHost
  | .LinkLocal => if inbound then IncomingLAN else PeerLAN
  | .SiteLocal => if inbound then IncomingLAN else PeerLAN
  | .LocalMulticast => if inbound then IncomingLAN else PeerLAN
  | .Global => if inbound then IncomingInternet else PeerInternet
  | .GlobalMulticast => if inbound then IncomingInternet else PeerInternet
  | .Undefined => if inbound then IncomingInvalid else PeerInvalid
  | .Invalid => if inbound then IncomingInvalid else PeerInvalid

/-- Stage 1 (connection.go, lines 438-481): create the remote entity on
first sight, set the local address, and derive the scope tag. -/
def gatherEntity (env : Env) (pkt : Packet) (conn : Connection) : Connection :=
  match conn.Entity with
  | some _ => conn
  | none =>
    let ent : Entity :=
      { ip := pkt.info.RemoteIP, protocol := pkt.info.Protocol
        port := pkt.info.RemotePort, domain := "", cname := []
        ipScope := env.getIPScope pkt.info.RemoteIP }
    let conn := { conn with Entity := some ent }
    let conn := conn.SetLocalIP env pkt.info.LocalIP
    let conn := { conn with LocalPort := pkt.info.LocalPort }
    { conn with Scope := scopeFor conn.Inbound ent.ipScope }

/-- Stage 2 (connection.go, lines 483-489): resolve the PID from the OS
state tables when it is still undefined; the lookup may also correct the
direction. -/
def gatherPid (env : Env) (pkt : Packet) (conn : Connection) : Connection :=
  if conn.PID = UndefinedProcessID then
    let r := env.getPidOfConnection pkt.info
    { conn with PID := r.1, Inbound := r.2 }
  else conn

/-- Stage 3 (connection.go, lines 497-509): fetch process and profile by
PID when not yet known; a failed lookup leaves the process nil. -/
def gatherProcess (env : Env) (conn : Connection) : Connection :=
  match conn.process with
  | some _ => conn
  | none => { conn with process := env.getProcessWithProfile conn.PID }

/-- Stage 4 (connection.go, lines 511-525): on first successful process
resolution, snapshot the process context and profile revision, inherit the
internal flag, and refresh the feature flags. -/
def applyProcessInfo (env : Env) (conn : Connection) : Connection :=
  match conn.process with
  | none => conn
  | some proc =>
    if conn.ProfileRevisionCounter = 0 then
      let conn := { conn with
        ProcessContext := getProcessContext proc
        ProfileRevisionCounter := (proc.profile.map LayeredProfile.revisionCnt).getD 0 }
      match proc.profile >>= LayeredProfile.localProfile with
      | none => conn
      | some localProfile =>
        Connection.UpdateFeatures env { conn with Internal := localProfile.internal }
    else conn

/-- Stage 5 (connection.go, lines 527-546): backfill the domain from the
reverse-IP cache, scoped to the profile with a global fallback. -/
def gatherDomain (env : Env) (pkt : Packet) (conn : Connection) : Connection :=
  match conn.Entity with
  | none => conn
  | some ent =>
    if ent.domain = "" ∧ conn.processProfile.isSome then
      let profileID :=
        ((conn.processProfile >>= LayeredProfile.localProfile).map LocalProfile.id).getD ""
      let ipinfo :=
        match env.getIPInfo profileID pkt.info.RemoteIP with
        | some i => some i
        | none => env.getIPInfo IPInfoProfileScopeGlobal pkt.info.RemoteIP
      match ipinfo with
      | none => conn
      | some i =>
        match i.mostRecentDomain with
        | none => conn
        | some d =>
          { conn with
            Scope := d.domain
            Entity := some { ent with domain := d.domain, cname := d.cnames }
            DNSContext := d.dnsRequestContext
            Resolver := d.resolverInfo }
    else conn

/-- Stage 6 (connection.go, lines 548-555): fall back to the captive
portal's domain when the remote IP matches it. -/
def gatherCaptivePortal (env : Env) (pkt : Packet) (conn : Connection) : Connection :=
  match conn.Entity with
  | none => conn
  | some ent =>
    if ent.domain = "" then
      match env.captivePortal with
      | none => conn
      | some portal =>
        if pkt.info.RemoteIP = portal.1 then
          { conn with Scope := portal.2, Entity := some { ent with domain := portal.2 } }
        else conn
    else conn

/-- Stage 7 (connection.go, lines 557-570): mark the data complete when the
packet is a real packet and process, profile and entity are all known. -/
def markComplete (pkt : Packet) (conn : Connection) : Connection :=
  if pkt.infoOnly then conn
  else if conn.process.isNone then conn
  else if conn.processProfile.isNone then conn
  else if conn.Entity.isNone then conn
  else { conn with dataComplete := true }

/-- `conn.GatherConnectionInfo` (connection.go, lines 436-573). Info-only
packets return right after the PID stage (line 493-495); the function
always returns nil, so no error value is modelled. -/
def Connection.GatherConnectionInfo (env : Env) (pkt : Packet) (conn : Connection) : Connection :=
  let conn := gatherEntity env pkt conn
  let conn := gatherPid env pkt conn
  if pkt.infoOnly then conn
  else
    let conn := applyProcessInfo env (gatherProcess env conn)
    let conn := gatherCaptivePortal env pkt (gatherDomain env pkt conn)
    markComplete pkt conn

/-! ## Storage and packet arbitration -/

/-- Side effects on external collaborators performed by `Save` and
`delete`. -/
inductive DBEffect where
  | updateMeta
  | setKeyDNS
  | setKeyIP
  | addedToMetrics
  | pushUpdate
  | removeFromIPTable
  | removeFromDNSTable
  | metaDelete
deriving DecidableEq, Repr

/-- Modelled from the spec: `conn.addToMetrics` lives in the metrics code
of the `network` package outside the sources; the spec says a connection is
accounted in the metrics once, which the `addedToMetrics` field guards. -/
def Connection.addToMetrics (conn : Connection) : Connection × List DBEffect :=
  if conn.addedToMetrics then (conn, [])
  else ({ conn with addedToMetrics := true }, [DBEffect.addedToMetrics])

/-- `conn.Save` (connection.go, lines 753-780): refresh record metadata,
abort while data is incomplete, set the storage key and register on first
save, account metrics, and push to the database controller. -/
def Connection.Save (conn : Connection) : Connection × List DBEffect :=
  if !conn.DataIsComplete then (conn, [DBEffect.updateMeta])
  else
    let keyed :=
      if !conn.keyIsSet then
        if conn.connType = ConnectionType.DNSRequest then
          ({ conn with keyIsSet := true }, [DBEffect.setKeyDNS])
        else
          ({ conn with keyIsSet := true }, [DBEffect.setKeyIP])
      else (conn, ([] : List DBEffect))
    let metricized := keyed.1.addToMetrics
    (metricized.1,
      [DBEffect.updateMeta] ++ keyed.2 ++ metricized.2 ++ [DBEffect.pushUpdate])

/-- `conn.delete` (connection.go, lines 782-801): remove from the matching
registry table, mark the record deleted, and push an update only when the
connection was complete and thus previously exposed. -/
def Connection.delete (conn : Connection) : List DBEffect :=
  (if conn.connType = ConnectionType.IPConnection then [DBEffect.removeFromIPTable]
   else [DBEffect.removeFromDNSTable])
  ++ [DBEffect.metaDelete]
  ++ (if conn.DataIsComplete then [DBEffect.pushUpdate] else [])

/-- The capacity of the per-connection packet queue,
`make(chan packet.Packet, 100)` (connection.go, line 816). -/
def pktQueueCapacity : Nat := 100

/-- `conn.SetFirewallHandler` (connection.go, lines 803-827): a nil handler
returns immediately; otherwise allocate and activate the queue when needed,
start the worker when no handler was installed, and install the handler.
The returned flag reports whether `module.StartWorker` was called. -/
def Connection.SetFirewallHandler (conn : Connection)
    (handler : Option FirewallHandler) : Connection × Bool :=
  match handler with
  | none => (conn, false)
  | some h =>
    let conn :=
      if !conn.pktQueueActive then
        { conn with pktQueue := [], pktQueueActive := true }
      else conn
    let startedWorker := conn.firewallHandler.isNone
    ({ conn with firewallHandler := some h }, startedWorker)

/-- `conn.UpdateFirewallHandler` (connection.go, lines 829-836): replace
the handler only when both the replacement and the current handler are
non-nil. -/
def Connection.UpdateFirewallHandler (conn : Connection)
    (handler : Option FirewallHandler) : Connection :=
  match handler, conn.firewallHandler with
  | some h, some _ => { conn with firewallHandler := some h }
  | _, _ => conn

/-- `conn.StopFirewallHandler` (connection.go, lines 838-855): clear the
handler, close and deactivate the queue, and release the queue
reference. -/
def Connection.StopFirewallHandler (conn : Connection) : Connection :=
  let conn := { conn with firewallHandler := none }
  let conn :=
    if conn.pktQueueActive then { conn with pktQueueActive := false } else conn
  { conn with pktQueue := [] }

/-- What `HandlePacket` did with the offered packet. `droppedPacket` stands
for the overflow branch, which invokes the packet's `Drop()` side effect
and records a trace; `ranDefaultHandler` stands for the synchronous default
handling path, which also records the handling-latency metric. -/
inductive HandleEffect where
  | enqueued
  | droppedPacket
  | ranDefaultHandler
deriving DecidableEq, Repr

/-- `conn.HandlePacket` (connection.go, lines 857-880): with an active
queue, perform a non-blocking send — append when the buffer has room, drop
the packet otherwise; with no active queue, run the default firewall
handler synchronously. -/
def Connection.HandlePacket (env : Env) (conn : Connection) (pkt : Packet) :
    Connection × HandleEffect :=
  if conn.pktQueueActive then
    if conn.pktQueue.length < pktQueueCapacity then
      ({ conn with pktQueue := conn.pktQueue ++ [pkt] }, HandleEffect.enqueued)
    else (conn, HandleEffect.droppedPacket)
  else (env.defaultFirewallHandler conn pkt, HandleEffect.ranDefaultHandler)

/-! ## Sequences of verdict assignments

The firewall handler assigns verdicts through the wrapper methods or
through `SetVerdict`/`SetVerdictDirectly`; `VerdictOp` enumerates these
entry points so that whole assignment histories can be reasoned about. -/

/-- One verdict assignment through a public entry point of
`network/connection.go`. -/
inductive VerdictOp where
  | accept (reason key : String)
  | block (reason key : String)
  | drop (reason key : String)
  | deny (reason key : String)
  | failed (reason key : String)
  | setVerdict (v : Verdict) (reason key : String) (ctx : Option String)
  | setVerdictDirectly (v : Verdict)

/-- Apply one verdict assignment to a connection. -/
def applyVerdictOp (conn : Connection) : VerdictOp → Connection
  | .accept reason key => conn.Accept reason key
  | .block reason key => conn.Block reason key
  | .drop reason key => conn.Drop reason key
  | .deny reason key => conn.Deny reason key
  | .failed reason key => conn.Failed reason key
  | .setVerdict v reason key ctx => (conn.SetVerdict v reason key ctx).1
  | .setVerdictDirectly v => conn.SetVerdictDirectly v

/-- Apply a sequence of verdict assignments, oldest first. -/
def applyVerdictOps (conn : Connection) (ops : List VerdictOp) : Connection :=
  ops.foldl applyVerdictOp conn

/-- The verdict an assignment writes to `Verdict.Firewall`, given the
connection's direction (`deny` switches on it). -/
def VerdictOp.assigned (inbound : Bool) : VerdictOp → Verdict
  | .accept _ _ => Verdict.Accept
  | .block _ _ => Verdict.Block
  | .drop _ _ => Verdict.Drop
  | .deny _ _ => if inbound then Verdict.Drop else Verdict.Block
  | .failed _ _ => Verdict.Failed
  | .setVerdict v _ _ _ => v
  | .setVerdictDirectly v => v

/-- The verdict assigned by the last operation of a sequence, with a
fallback for the empty sequence. -/
def lastAssigned (inbound : Bool) (fallback : Verdict) : List VerdictOp → Verdict
  | [] => fallback
  | op :: rest => lastAssigned inbound (op.assigned inbound) rest

/-! ## Helper lemmas -/

@[simp]
lemma SetVerdict_Verdict (conn : Connection) (v : Verdict) (r k : String)
    (c : Option String) :
    ((conn.SetVerdict v r k c).1).Verdict = { conn.Verdict with Firewall := v } := by
  simp only [Connection.SetVerdict, Connection.SetVerdictDirectly]
  repeat' split
  all_goals rfl

@[simp]
lemma SetVerdict_process (conn : Connection) (v : Verdict) (r k : String)
    (c : Option String) :
    ((conn.SetVerdict v r k c).1).process = conn.process := by
  simp only [Connection.SetVerdict, Connection.SetVerdictDirectly]
  repeat' split
  all_goals rfl

@[simp]
lemma SetVerdict_Inbound (conn : Connection) (v : Verdict) (r k : String)
    (c : Option String) :
    ((conn.SetVerdict v r k c).1).Inbound = conn.Inbound := by
  simp only [Connection.SetVerdict, Connection.SetVerdictDirectly]
  repeat' split
  all_goals rfl

/-- The reason value `SetVerdict` installs, as a function of the process
profile and the arguments alone. -/
def reasonAfter (pp : Option LayeredProfile) (reason key : String)
    (ctx : Option String) : Reason :=
  if key ≠ "" then
    match pp with
    | some lp =>
      { Msg := reason, Context := ctx, OptionKey := key
        Profile := lp.getProfileSource key }
    | none => { Msg := reason, Context := ctx, OptionKey := "", Profile := "" }
  else { Msg := reason, Context := ctx, OptionKey := "", Profile := "" }

@[simp]
lemma SetVerdict_Reason (conn : Connection) (v : Verdict) (r k : String)
    (c : Option String) :
    ((conn.SetVerdict v r k c).1).Reason = reasonAfter conn.processProfile r k c := by
  simp only [Connection.SetVerdict, Connection.SetVerdictDirectly, reasonAfter,
    Connection.processProfile]
  repeat' split
  all_goals simp_all

lemma applyVerdictOp_Worst (conn : Connection) (op : VerdictOp) :
    (applyVerdictOp conn op).Verdict.Worst = conn.Verdict.Worst := by
  cases op
  all_goals
    simp only [applyVerdictOp, Connection.Accept, Connection.AcceptWithContext,
      Connection.Block, Connection.BlockWithContext, Connection.Drop,
      Connection.DropWithContext, Connection.Deny, Connection.DenyWithContext,
      Connection.Failed, Connection.FailedWithContext,
      Connection.SetVerdictDirectly]
  all_goals try split
  all_goals simp

lemma applyVerdictOp_Inbound (conn : Connection) (op : VerdictOp) :
    (applyVerdictOp conn op).Inbound = conn.Inbound := by
  cases op
  all_goals
    simp only [applyVerdictOp, Connection.Accept, Connection.AcceptWithContext,
      Connection.Block, Connection.BlockWithContext, Connection.Drop,
      Connection.DropWithContext, Connection.Deny, Connection.DenyWithContext,
      Connection.Failed, Connection.FailedWithContext,
      Connection.SetVerdictDirectly]
  all_goals try split
  all_goals simp

lemma applyVerdictOp_Firewall (conn : Connection) (op : VerdictOp) :
    (applyVerdictOp conn op).Verdict.Firewall = op.assigned conn.Inbound := by
  cases op
  all_goals
    simp only [applyVerdictOp, VerdictOp.assigned, Connection.Accept,
      Connection.AcceptWithContext, Connection.Block, Connection.BlockWithContext,
      Connection.Drop, Connection.DropWithContext, Connection.Deny,
      Connection.DenyWithContext, Connection.Failed, Connection.FailedWithContext,
      Connection.SetVerdictDirectly]
  all_goals try split
  all_goals simp_all

@[simp]
lemma UpdateFeatures_dataComplete (env : Env) (conn : Connection) :
    (conn.UpdateFeatures env).dataComplete = conn.dataComplete := by
  simp only [Connection.UpdateFeatures]
  repeat' split
  all_goals rfl

@[simp]
lemma UpdateFeatures_process (env : Env) (conn : Connection) :
    (conn.UpdateFeatures env).process = conn.process := by
  simp only [Connection.UpdateFeatures]
  repeat' split
  all_goals rfl

@[simp]
lemma UpdateFeatures_Entity (env : Env) (conn : Connection) :
    (conn.UpdateFeatures env).Entity = conn.Entity := by
  simp only [Connection.UpdateFeatures]
  repeat' split
  all_goals rfl

@[simp]
lemma gatherEntity_dataComplete (env : Env) (pkt : Packet) (conn : Connection) :
    (gatherEntity env pkt conn).dataComplete = conn.dataComplete := by
  simp only [gatherEntity, Connection.SetLocalIP]
  split
  all_goals rfl

@[simp]
lemma gatherEntity_process (env : Env) (pkt : Packet) (conn : Connection) :
    (gatherEntity env pkt conn).process = conn.process := by
  simp only [gatherEntity, Connection.SetLocalIP]
  split
  all_goals rfl

@[simp]
lemma gatherPid_dataComplete (env : Env) (pkt : Packet) (conn : Connection) :
    (gatherPid env pkt conn).dataComplete = conn.dataComplete := by
  simp only [gatherPid]
  split
  all_goals rfl

@[simp]
lemma gatherPid_process (env : Env) (pkt : Packet) (conn : Connection) :
    (gatherPid env pkt conn).process = conn.process := by
  simp only [gatherPid]
  split
  all_goals rfl

@[simp]
lemma gatherPid_Entity (env : Env) (pkt : Packet) (conn : Connection) :
    (gatherPid env pkt conn).Entity = conn.Entity := by
  simp only [gatherPid]
  split
  all_goals rfl

@[simp]
lemma gatherProcess_dataComplete (env : Env) (conn : Connection) :
    (gatherProcess env conn).dataComplete = conn.dataComplete := by
  simp only [gatherProcess]
  split
  all_goals rfl

@[simp]
lemma gatherProcess_Entity (env : Env) (conn : Connection) :
    (gatherProcess env conn).Entity = conn.Entity := by
  simp only [gatherProcess]
  split
  all_goals rfl

@[simp]
lemma applyProcessInfo_dataComplete (env : Env) (conn : Connection) :
    (applyProcessInfo env conn).dataComplete = conn.dataComplete := by
  simp only [applyProcessInfo]
  repeat' split
  all_goals simp

@[simp]
lemma applyProcessInfo_process (env : Env) (conn : Connection) :
    (applyProcessInfo env conn).process = conn.process := by
  simp only [applyProcessInfo]
  repeat' split
  all_goals simp

@[simp]
lemma applyProcessInfo_Entity (env : Env) (conn : Connection) :
    (applyProcessInfo env conn).Entity = conn.Entity := by
  simp only [applyProcessInfo]
  repeat' split
  all_goals simp

@[simp]
lemma gatherDomain_dataComplete (env : Env) (pkt : Packet) (conn : Connection) :
    (gatherDomain env pkt conn).dataComplete = conn.dataComplete := by
  simp only [gatherDomain]
  repeat' split
  all_goals rfl

@[simp]
lemma gatherDomain_process (env : Env) (pkt : Packet) (conn : Connection) :
    (gatherDomain env pkt conn).process = conn.process := by
  simp only [gatherDomain]
  repeat' split
  all_goals rfl

@[simp]
lemma gatherDomain_Entity_isSome (env : Env) (pkt : Packet) (conn : Connection) :
    (gatherDomain env pkt conn).Entity.isSome = conn.Entity.isSome := by
  simp only [gatherDomain]
  repeat' split
  all_goals simp_all

@[simp]
lemma gatherCaptivePortal_dataComplete (env : Env) (pkt : Packet) (conn : Connection) :
    (gatherCaptivePortal env pkt conn).dataComplete = conn.dataComplete := by
  simp only [gatherCaptivePortal]
  repeat' split
  all_goals rfl

@[simp]
lemma gatherCaptivePortal_process (env : Env) (pkt : Packet) (conn : Connection) :
    (gatherCaptivePortal env pkt conn).process = conn.process := by
  simp only [gatherCaptivePortal]
  repeat' split
  all_goals rfl

@[simp]
lemma gatherCaptivePortal_Entity_isSome (env : Env) (pkt : Packet) (conn : Connection) :
    (gatherCaptivePortal env pkt conn).Entity.isSome = conn.Entity.isSome := by
  simp only [gatherCaptivePortal]
  repeat' split
  all_goals simp_all

@[simp]
lemma markComplete_process (pkt : Packet) (conn : Connection) :
    (markComplete pkt conn).process = conn.process := by
  simp only [markComplete]
  repeat' split
  all_goals rfl

@[simp]
lemma markComplete_Entity (pkt : Packet) (conn : Connection) :
    (markComplete pkt conn).Entity = conn.Entity := by
  simp only [markComplete]
  repeat' split
  all_goals rfl

@[simp]
lemma processProfile_eq (conn : Connection) :
    conn.processProfile = conn.process >>= Process.profile := rfl

lemma markComplete_dataComplete (pkt : Packet) (conn : Connection) :
    (markComplete pkt conn).dataComplete
      = (conn.dataComplete
         || (!pkt.infoOnly && conn.process.isSome
             && conn.processProfile.isSome && conn.Entity.isSome)) := by
  simp only [markComplete]
  cases hio : pkt.infoOnly
  · cases hp : conn.process <;> cases hpp : conn.processProfile <;>
      cases he : conn.Entity <;> simp_all
  · simp

/-! ## Concrete objects used by witnesses and counterexamples -/

/-- A benign oracle: every external lookup fails or is empty. -/
def envW : Env :=
  { getIPScope := fun _ => IPScope.Global
    isIPv4 := fun _ => true
    getPidOfConnection := fun _ => (UndefinedProcessID, false)
    getProcessWithProfile := fun _ => none
    getIPInfo := fun _ _ => none
    captivePortal := none
    getUser := none
    getUserHardError := false
    getDNSRequestConnection := fun _ => none
    defaultFirewallHandler := fun conn _ => conn }

/-- A concrete outbound TCP packet. -/
def pktW : Packet :=
  { info := { Inbound := false, Version := 4, Protocol := 6, Src := "10.0.0.2"
              SrcPort := 44321, Dst := "93.184.216.34", DstPort := 443
              PID := 4711, SeenAt := 1700000000 }
    infoOnly := false, expectInfo := false, connectionID := "conn-1" }

/-- A connection whose active packet queue is filled to capacity. -/
def connFullQueue : Connection :=
  { emptyConnection with
    pktQueueActive := true
    pktQueue := List.replicate 100 pktW }

/-- A process whose layered profile pointer is nil. -/
def procNoProfile : Process :=
  { name := "proc", path := "/usr/bin/proc", cmdLine := "proc", pid := 7
    createdAt := 0, profile := none }

/-- A connection owned by a process without a profile. -/
def connWithProcessNoProfile : Connection :=
  { emptyConnection with process := some procNoProfile }

/-- A concrete layered profile whose every option key resolves to the
profile "profile-1". -/
def lpW : LayeredProfile :=
  { localProfile := some { id := "profile-1", name := "App", source := "local"
                           internal := false }
    revisionCnt := 1, enableHistory := false
    getProfileSource := fun _ => "profile-1" }

/-- A process carrying `lpW`. -/
def procWithProfile : Process :=
  { name := "app", path := "/usr/bin/app", cmdLine := "app", pid := 4711
    createdAt := 0, profile := some lpW }

/-- A connection owned by a process with profile `lpW`. -/
def connWithProfile : Connection :=
  { emptyConnection with process := some procWithProfile }

/-- A pre-registered DNS-request connection entry that is still live. -/
def dnsEntryW : Connection :=
  { emptyConnection with PID := 9001, Ended := 0 }

/-! ## Claim theorems -/

/-- Claim C1, counterexample: on a fresh connection a single `Accept`
leaves `Verdict.Worst` at `Undecided` while `Verdict.Firewall` becomes
`Accept`, so `Worst` is not the maximum of the verdicts ever assigned and
is strictly below `Firewall` after the first verdict was set: the claim
fails on the code, whose `SetVerdict` writes only `Verdict.Firewall`. -/
theorem C1_counterexample :
    (Connection.Accept emptyConnection "allowed" "").Verdict.Firewall = Verdict.Accept
    ∧ (Connection.Accept emptyConnection "allowed" "").Verdict.Worst = Verdict.Undecided
    ∧ Verdict.severity (Connection.Accept emptyConnection "allowed" "").Verdict.Worst
        < Verdict.severity (Connection.Accept emptyConnection "allowed" "").Verdict.Firewall := by
  refine ⟨rfl, rfl, by decide⟩

/-- Claim C1, amended: for every connection and every sequence of verdict
assignments via `Accept`/`Block`/`Drop`/`Deny`/`Failed`/`SetVerdict`/
`SetVerdictDirectly`, `Verdict.Firewall` equals the verdict assigned by the
last operation, and `Verdict.Worst` is left unchanged by all of them — the
worst-verdict bookkeeping is not performed by these functions. -/
theorem C1_amended_firewall_only (conn : Connection) (ops : List VerdictOp) :
    (applyVerdictOps conn ops).Verdict.Worst = conn.Verdict.Worst
    ∧ (applyVerdictOps conn ops).Verdict.Firewall
        = lastAssigned conn.Inbound conn.Verdict.Firewall ops := by
  induction ops generalizing conn with
  | nil => exact ⟨rfl, rfl⟩
  | cons op rest ih =>
    have h := ih (applyVerdictOp conn op)
    have hstep : applyVerdictOps conn (op :: rest)
        = applyVerdictOps (applyVerdictOp conn op) rest := rfl
    constructor
    · rw [hstep, h.1, applyVerdictOp_Worst]
    · rw [hstep, h.2, applyVerdictOp_Firewall, applyVerdictOp_Inbound]
      rfl

/-- Claim C2: with an active queue, `HandlePacket` never blocks and the
queue buffers at most 100 packets: below capacity the packet is appended,
at capacity the offered packet is dropped (its `Drop()` side effect is
invoked and a trace recorded) and the connection is left unchanged. -/
theorem C2_handlePacket_bounded (env : Env) (conn : Connection) (pkt : Packet)
    (hActive : conn.pktQueueActive = true)
    (hLen : conn.pktQueue.length ≤ pktQueueCapacity) :
    ((conn.HandlePacket env pkt).1.pktQueue.length ≤ pktQueueCapacity)
    ∧ (conn.pktQueue.length < pktQueueCapacity →
        conn.HandlePacket env pkt
          = ({ conn with pktQueue := conn.pktQueue ++ [pkt] }, HandleEffect.enqueued))
    ∧ (conn.pktQueue.length = pktQueueCapacity →
        conn.HandlePacket env pkt = (conn, HandleEffect.droppedPacket)) := by
  refine ⟨?_, ?_, ?_⟩
  · unfold Connection.HandlePacket
    by_cases h : conn.pktQueue.length < pktQueueCapacity
    · simp only [hActive, if_true, h, if_pos]
      simp only [pktQueueCapacity] at h ⊢
      simp
      omega
    · simp only [hActive, if_true, h, if_neg, not_false_iff]
      simpa using hLen
  · intro h
    unfold Connection.HandlePacket
    simp [hActive, h]
  · intro hfull
    have h : ¬ conn.pktQueue.length < pktQueueCapacity := by omega
    unfold Connection.HandlePacket
    simp [hActive, h]

/-- Claim C2, witness: a connection with an active queue holding exactly
100 packets drops the next offered packet and is left unchanged. -/
theorem C2_witness :
    connFullQueue.pktQueueActive = true
    ∧ connFullQueue.pktQueue.length ≤ pktQueueCapacity
    ∧ connFullQueue.HandlePacket envW pktW = (connFullQueue, HandleEffect.droppedPacket) := by
  have hlen : connFullQueue.pktQueue.length = pktQueueCapacity := by
    simp [connFullQueue, pktQueueCapacity]
  have h := C2_handlePacket_bounded envW connFullQueue pktW rfl (le_of_eq hlen)
  exact ⟨rfl, le_of_eq hlen, h.2.2 hlen⟩

/-- Claim C3: after `GatherConnectionInfo` processes a packet, the
`dataComplete` flag holds exactly when it already held before or the packet
is not info-only and the process, its profile, and the entity are all
known. -/
theorem C3_dataComplete_condition (env : Env) (pkt : Packet) (conn : Connection) :
    (conn.GatherConnectionInfo env pkt).dataComplete
      = (conn.dataComplete
         || (!pkt.infoOnly
             && (conn.GatherConnectionInfo env pkt).process.isSome
             && (conn.GatherConnectionInfo env pkt).processProfile.isSome
             && (conn.GatherConnectionInfo env pkt).Entity.isSome)) := by
  unfold Connection.GatherConnectionInfo
  cases hio : pkt.infoOnly
  · simp [hio, markComplete_dataComplete]
  · simp [hio]

/-- Claim C4: `Save` refreshes metadata and aborts before inserting,
accounting metrics, or pushing when the data is incomplete; both for `Save`
and for `delete`, an update is pushed to the database controller exactly
when `DataIsComplete` holds. -/
theorem C4_push_only_when_complete (conn : Connection) :
    (DBEffect.pushUpdate ∈ conn.Save.2 ↔ conn.DataIsComplete = true)
    ∧ (conn.DataIsComplete = false → conn.Save = (conn, [DBEffect.updateMeta]))
    ∧ (DBEffect.pushUpdate ∈ conn.delete ↔ conn.DataIsComplete = true) := by
  refine ⟨?_, ?_, ?_⟩
  · unfold Connection.Save Connection.addToMetrics Connection.DataIsComplete
    cases hdc : conn.dataComplete
    · simp
    · repeat' split
      all_goals simp_all
  · intro hdc
    unfold Connection.Save
    simp [Connection.DataIsComplete] at hdc
    simp [Connection.DataIsComplete, hdc]
  · unfold Connection.delete Connection.DataIsComplete
    cases hdc : conn.dataComplete <;> repeat' split
    all_goals simp_all

/-- Claim C4, witness: an incomplete connection only refreshes its
metadata on `Save`, and its deletion pushes no update. -/
theorem C4_witness :
    emptyConnection.Save = (emptyConnection, [DBEffect.updateMeta])
    ∧ (DBEffect.pushUpdate ∈ Connection.delete emptyConnection
        ↔ emptyConnection.DataIsComplete = true) := by
  have h := C4_push_only_when_complete emptyConnection
  exact ⟨h.2.1 rfl, h.2.2⟩

/-- Claim C5: the DNS-request inheritance decision of
`NewConnectionFromDNSRequest` donates the pre-registered entry's PID and
process reference exactly when an entry was found, its PID is not negative,
and it is live — `Ended = 0` or `Ended` within the last 3 seconds; an entry
that ended more than 3 seconds ago never donates. `Ended` is an epoch
timestamp and hence non-negative. -/
theorem C5_dns_pid_inheritance (e : Connection) (now : Int) (hEnded : 0 ≤ e.Ended) :
    (dnsRequestInheritance (some e) now
      = if 0 ≤ e.PID ∧ (e.Ended = 0 ∨ now - 3 ≤ e.Ended)
        then some (e.PID, e.process) else none)
    ∧ dnsRequestInheritance none now = none := by
  refine ⟨?_, rfl⟩
  have hred : dnsRequestInheritance (some e) now
      = if e.PID < 0 then none
        else if e.Ended > 0 ∧ e.Ended < now - 3 then none
        else some (e.PID, e.process) := rfl
  rw [hred]
  by_cases h1 : e.PID < 0
  · have hC : ¬(0 ≤ e.PID ∧ (e.Ended = 0 ∨ now - 3 ≤ e.Ended)) := by omega
    rw [if_pos h1, if_neg hC]
  · by_cases h2 : e.Ended > 0 ∧ e.Ended < now - 3
    · have hC : ¬(0 ≤ e.PID ∧ (e.Ended = 0 ∨ now - 3 ≤ e.Ended)) := by omega
      rw [if_neg h1, if_pos h2, if_neg hC]
    · have hC : 0 ≤ e.PID ∧ (e.Ended = 0 ∨ now - 3 ≤ e.Ended) := by omega
      rw [if_neg h1, if_neg h2, if_pos hC]

/-- Claim C5, witness: a live entry with PID 9001 and `Ended = 0` donates
its PID and process reference. -/
theorem C5_witness :
    (0 : Int) ≤ dnsEntryW.Ended
    ∧ dnsRequestInheritance (some dnsEntryW) 1700000000 = some (9001, none) := by
  have h := (C5_dns_pid_inheritance dnsEntryW 1700000000 (by decide)).1
  rw [if_pos] at h
  · exact ⟨by decide, h⟩
  · exact ⟨by decide, Or.inl rfl⟩

/-- Claim C6: `Deny` and `DenyWithContext` set `Verdict.Firewall` to
`Drop` on an inbound connection and to `Block` on an outbound connection,
and never to any other verdict. -/
theorem C6_deny_direction (conn : Connection) (reason key : String) (ctx : Option String) :
    ((conn.DenyWithContext reason key ctx).Verdict.Firewall
        = if conn.Inbound then Verdict.Drop else Verdict.Block)
    ∧ ((conn.Deny reason key).Verdict.Firewall
        = if conn.Inbound then Verdict.Drop else Verdict.Block) := by
  unfold Connection.Deny Connection.DenyWithContext Connection.DropWithContext
    Connection.BlockWithContext
  cases h : conn.Inbound <;> simp [h]

/-- Claim C7: a connection created from a packet has
`Started ≥ 2020-01-01T00:00:00Z` (epoch 1577836800): a `SeenAt` stamp older
than that is replaced by the current time, otherwise `Started` equals the
packet's `SeenAt`. The hypothesis states that the current time is not
before 2020. -/
theorem C7_started_clamped (pkt : Packet) (now : Int)
    (hNow : tooOldTimestamp ≤ now) :
    tooOldTimestamp ≤ (NewIncompleteConnection pkt now).Started
    ∧ (NewIncompleteConnection pkt now).Started
        = (if pkt.info.SeenAt < tooOldTimestamp then now else pkt.info.SeenAt) := by
  unfold NewIncompleteConnection
  by_cases h : pkt.info.SeenAt < tooOldTimestamp <;> simp [h] <;> omega

/-- Claim C7, witness: a packet seen at epoch 1700000000 keeps its stamp,
which is at least the 2020 cutoff. -/
theorem C7_witness :
    tooOldTimestamp ≤ (1700000000 : Int)
    ∧ tooOldTimestamp ≤ (NewIncompleteConnection pktW 1700000000).Started := by
  exact ⟨by decide, (C7_started_clamped pktW 1700000000 (by decide)).1⟩

/-- Claim C8, counterexample: on a connection whose process has no
profile, `SetVerdict` with the non-empty option key "filter/endpoints"
leaves `Reason.OptionKey` and `Reason.Profile` empty, refuting the claim
that they are reassigned exactly when a non-empty option key argument is
provided. -/
theorem C8_counterexample :
    ("filter/endpoints" : String) ≠ ""
    ∧ ((connWithProcessNoProfile.SetVerdict Verdict.Block "blocked"
          "filter/endpoints" none).1).Reason.OptionKey = ""
    ∧ ((connWithProcessNoProfile.SetVerdict Verdict.Block "blocked"
          "filter/endpoints" none).1).Reason.Profile = "" := by
  refine ⟨by decide, ?_, ?_⟩ <;>
    simp [connWithProcessNoProfile, procNoProfile, emptyConnection, reasonAfter,
      Connection.processProfile]

/-- Claim C8, amended: every `SetVerdict` call replaces the `Reason`
wholesale — `Msg` and `Context` from the arguments, `OptionKey` and
`Profile` cleared — and the latter two are reassigned from the process
profile exactly when a non-empty option key is provided AND the process
profile is non-nil. -/
theorem C8_amended_reason_wholesale (conn : Connection) (v : Verdict)
    (msg key : String) (ctx : Option String) :
    ((conn.SetVerdict v msg key ctx).1).Reason.Msg = msg
    ∧ ((conn.SetVerdict v msg key ctx).1).Reason.Context = ctx
    ∧ (key = "" →
        ((conn.SetVerdict v msg key ctx).1).Reason.OptionKey = ""
        ∧ ((conn.SetVerdict v msg key ctx).1).Reason.Profile = "")
    ∧ (conn.processProfile = none →
        ((conn.SetVerdict v msg key ctx).1).Reason.OptionKey = ""
        ∧ ((conn.SetVerdict v msg key ctx).1).Reason.Profile = "")
    ∧ (∀ lp, conn.processProfile = some lp → key ≠ "" →
        ((conn.SetVerdict v msg key ctx).1).Reason.OptionKey = key
        ∧ ((conn.SetVerdict v msg key ctx).1).Reason.Profile
            = lp.getProfileSource key) := by
  simp only [SetVerdict_Reason]
  unfold reasonAfter
  by_cases hk : key = ""
  · simp [hk]
  · cases hpp : conn.processProfile <;> simp [hk, hpp]

/-- Claim C8, witness: with a profile present and the non-empty key
"filter/lists", the reason is rebuilt with that key and the profile
source. -/
theorem C8_witness :
    ((connWithProfile.SetVerdict Verdict.Block "m" "filter/lists" none).1).Reason.Msg = "m"
    ∧ ((connWithProfile.SetVerdict Verdict.Block "m" "filter/lists" none).1).Reason.OptionKey
        = "filter/lists"
    ∧ ((connWithProfile.SetVerdict Verdict.Block "m" "filter/lists" none).1).Reason.Profile
        = "profile-1" := by
  have h := C8_amended_reason_wholesale connWithProfile Verdict.Block "m" "filter/lists" none
  have h5 := h.2.2.2.2 lpW rfl (by decide)
  refine ⟨h.1, h5.1, ?_⟩
  rw [h5.2]
  rfl

/-- Claim C9: calling `Accept` twice with the same reason and option key
leaves `Reason` identical to a single call. -/
theorem C9_accept_idempotent (conn : Connection) (reason key : String) :
    ((conn.Accept reason key).Accept reason key).Reason
      = (conn.Accept reason key).Reason := by
  unfold Connection.Accept Connection.AcceptWithContext
  simp

/-- Claim C10: `SetFirewallHandler` with a nil handler is a complete
no-op: the connection is returned unchanged — no queue allocated or
activated, no handler installed — and no worker is started. -/
theorem C10_nil_handler_noop (conn : Connection) :
    conn.SetFirewallHandler none = (conn, false) := rfl

end Network
